import Mathlib

/-!
Shallow embedding of the ChibiOS OSAL port (`src/osal/osal_chibios.h`) of the
TinyUSB stack: counting semaphores, mutexes built on them, and the
pool-backed object queue, together with the ChibiOS kernel primitives they
call, modelled at the boundary the spec describes (the kernel itself is an
external collaborator and is not part of the repository).

Conventions of the embedding:
  - byte buffers are `List Nat` (one entry per byte); `memcpy` of `n` bytes
    is `List.take n`;
  - pointers are addresses (`Nat`); the heap of kernel semaphore counters is
    `SemHeap : Nat → Int`;
  - a call that can block forever returns `Option` (`none` = the call never
    returns in the modelled execution);
  - C's implicit `msg_t → bool` conversion (`MSG_OK` is `0`, every other
    code nonzero) is `msgToBool`;
  - where the source reads an uninitialized object (a C slip), the
    indeterminate value is an explicit extra parameter of the model, so that
    the behaviour can be evaluated under any choice of that value.
-/

/-- ChibiOS message codes: `MSG_OK = 0`, `MSG_TIMEOUT = -1`, `MSG_RESET = -2`. -/
inductive msg_t where
  | ok
  | timeout
  | reset
deriving DecidableEq, Repr

/-- C conversion of a `msg_t` to `bool`: `MSG_OK` (zero) becomes `false`,
every other code (nonzero) becomes `true`. -/
def msgToBool : msg_t → Bool
  | .ok => false
  | .timeout => true
  | .reset => true

/-- ChibiOS `sysinterval_t` timeout argument: `TIME_INFINITE` or a finite
tick count. The source's `osal_mutex_lock` stores the ticks in a `uint32_t`
and `osal_semaphore_wait` in a `sysinterval_t`; under the default 32-bit
`sysinterval_t` these agree, and both are modelled by this type. -/
inductive sysinterval_t where
  | infinite
  | ticks (n : Nat)
deriving DecidableEq, Repr

/-- Modelled from the spec: the reserved "wait forever" sentinel for
`timeout_ms` (defined in the repository's common OSAL header, not in the
analysed file) is the maximum 32-bit value. -/
def OSAL_TIMEOUT_WAIT_FOREVER : Nat := 4294967295

/-- Heap of kernel semaphore counters, indexed by the semaphore's address. -/
def SemHeap : Type := Nat → Int

/-- Single-cell heap update. -/
def semWrite (h : SemHeap) (a : Nat) (v : Int) : SemHeap :=
  fun x => if x = a then v else h x

/-- `osal_semaphore_def_t`: a `size` (capacity) and an embedded
`semaphore_t`, modelled by the address `semAddr` at which that embedded
kernel semaphore lives. -/
structure osal_semaphore_def_t where
  size : Nat
  semAddr : Nat
deriving DecidableEq, Repr

/-- `osal_semaphore_t` (also `osal_mutex_t`): a `size` and a pointer to a
kernel semaphore. -/
structure osal_semaphore_t where
  size : Nat
  sem : Nat
deriving DecidableEq, Repr

/-- Modelled from the spec: `chSemObjectInit(sem, n)` initializes the kernel
semaphore at address `a` with counter `n`. -/
def chSemObjectInit (h : SemHeap) (a : Nat) (n : Nat) : SemHeap :=
  semWrite h a (n : Int)

/-- `osal_semaphore_create`: `s.size = semdef->size`, `s.sem = &semdef->sem`,
`chSemObjectInit(s.sem, s.size)`, return `s`. -/
def osal_semaphore_create (semdef : osal_semaphore_def_t) (h : SemHeap) :
    osal_semaphore_t × SemHeap :=
  let s : osal_semaphore_t := { size := semdef.size, sem := semdef.semAddr }
  (s, chSemObjectInit h s.sem s.size)

/-- Modelled from the spec: `chSemWaitTimeout(sem, t)` on a counter `cnt`.
If the counter is positive it is taken at once (`MSG_OK`). Otherwise the
caller blocks and `env` says what the environment does while it is blocked:
`.ok` a post arrives and wakes it, `.reset` the semaphore is forcibly reset
releasing it with `MSG_RESET`, `.timeout` nothing happens before the
deadline — which with a finite timeout yields `MSG_TIMEOUT` and with
`TIME_INFINITE` means the call never returns (`none`). -/
def chSemWaitTimeout (cnt : Int) (t : sysinterval_t) (env : msg_t) :
    Option (msg_t × Int) :=
  if 0 < cnt then some (.ok, cnt - 1)
  else
    match env with
    | .ok => some (.ok, cnt)
    | .reset => some (.reset, cnt)
    | .timeout =>
      match t with
      | .infinite => none
      | .ticks _ => some (.timeout, cnt)

/-- `osal_semaphore_wait(sem_hdl, msec)`: converts the sentinel to
`TIME_INFINITE` and any other `msec` to ticks via the kernel's
millisecond-to-tick conversion (`TIME_MS2I`, passed as `ms2i`), calls
`chSemWaitTimeout` on the semaphore the handle points to, and returns the
kernel code converted to `bool`. -/
def osal_semaphore_wait (ms2i : Nat → Nat) (sem_hdl : osal_semaphore_t)
    (msec : Nat) (h : SemHeap) (env : msg_t) : Option (Bool × SemHeap) :=
  let ticks : sysinterval_t :=
    if msec = OSAL_TIMEOUT_WAIT_FOREVER then .infinite else .ticks (ms2i msec)
  (chSemWaitTimeout (h sem_hdl.sem) ticks env).map
    (fun p => (msgToBool p.1, semWrite h sem_hdl.sem p.2))

/-- `osal_mutex_create` as written in the source, which is a copy-paste slip
from `osal_semaphore_create`: it declares `osal_mutex_t m`, sets
`m.size = 1`, then assigns `s.sem = &mdef->sem` and ends with `return s`
where no variable `s` is declared in the function (the file does not compile
as C), and calls `chSemObjectInit(m.sem, m.size)` on the field `m.sem` that
was never assigned. The model makes the two indeterminates explicit:
`s_env` is the value of the undeclared `s` and `m_sem_env` the
indeterminate contents of the uninitialized `m.sem`. The initialization
therefore writes capacity 1 at the indeterminate address `m_sem_env`, and
the returned handle is `s_env` with only its `sem` field set to
`&mdef->sem`. -/
def osal_mutex_create (s_env : osal_semaphore_t) (m_sem_env : Nat)
    (mdef : osal_semaphore_def_t) (h : SemHeap) : osal_semaphore_t × SemHeap :=
  let s : osal_semaphore_t := { s_env with sem := mdef.semAddr }
  (s, chSemObjectInit h m_sem_env 1)

/-- `osal_mutex_lock(mutex_hdl, msec)`: same body as `osal_semaphore_wait` —
sentinel-to-`TIME_INFINITE` conversion, `TIME_MS2I` otherwise, then
`chSemWaitTimeout` on the pointed-to semaphore, result converted to `bool`. -/
def osal_mutex_lock (ms2i : Nat → Nat) (mutex_hdl : osal_semaphore_t)
    (msec : Nat) (h : SemHeap) (env : msg_t) : Option (Bool × SemHeap) :=
  let ticks : sysinterval_t :=
    if msec = OSAL_TIMEOUT_WAIT_FOREVER then .infinite else .ticks (ms2i msec)
  (chSemWaitTimeout (h mutex_hdl.sem) ticks env).map
    (fun p => (msgToBool p.1, semWrite h mutex_hdl.sem p.2))

/-- `memcpy(dst, src, n)` on byte lists: `dst` receives the first `n` bytes
of `src`. -/
def memcpyBytes (n : Nat) (src : List Nat) : List Nat :=
  src.take n

/-- State of a ChibiOS `objects_fifo_t` (guarded memory pool + mailbox over
parallel buffers of `depth` slots): the contents of the free pool slots and
the FIFO of enqueued objects (oldest first). The mailbox has exactly
`depth` message slots, so its used count is `queued.length` and its free
count `depth - queued.length`. -/
structure objects_fifo_t where
  depth : Nat
  objSz : Nat
  free : List (List Nat)
  queued : List (List Nat)
deriving DecidableEq, Repr

/-- `osal_queue_def_t`: `depth`, `obj_sz`, the two backing buffers (absorbed
into the fifo state) and the embedded `objects_fifo_t` control block,
modelled by the address `fifoAddr` at which it lives. -/
structure osal_queue_def_t where
  depth : Nat
  obj_sz : Nat
  fifoAddr : Nat
deriving DecidableEq, Repr

/-- `osal_queue_t`: `obj_sz` and a pointer to the `objects_fifo_t` control
block. The fifo state itself is passed alongside the handle in each
operation below; it is the state of the block the handle points to. -/
structure osal_queue_t where
  obj_sz : Nat
  fifo : Nat
deriving DecidableEq, Repr

/-- Modelled from the spec: `chFifoObjectInit(&fifo, objsize, objn, objbuf,
msgbuf)` — `objn` free slots of `objsize` bytes each (initial contents
indeterminate, taken as zero bytes; they are overwritten before being
observed), empty mailbox. -/
def chFifoObjectInit (objsize objn : Nat) : objects_fifo_t :=
  { depth := objn, objSz := objsize,
    free := List.replicate objn (List.replicate objsize 0), queued := [] }

/-- `osal_queue_create` as written in the source: it calls
`chFifoObjectInit(&qdef->fifo, qdef->obj_sz, qdef->depth, qdef->objbuf,
qdef->msgbuf)` correctly, but then ends with `return &qdef->fifo;` — a
pointer where the struct `osal_queue_t` is required (the file does not
compile as C), and the handle's `obj_sz` field is never assigned from the
descriptor. The model keeps the one piece of information the return
expression carries (the fifo reference) and makes the handle's
indeterminate `obj_sz` an explicit parameter `obj_sz_env`. -/
def osal_queue_create (obj_sz_env : Nat) (qdef : osal_queue_def_t) :
    osal_queue_t × objects_fifo_t :=
  ({ obj_sz := obj_sz_env, fifo := qdef.fifoAddr },
   chFifoObjectInit qdef.obj_sz qdef.depth)

/-- `osal_queue_send(qhdl, data, in_isr)`.
Thread path: `chFifoTakeObjectTimeout(fifo, TIME_INFINITE)` blocks until a
pool slot is free (`none` when the pool is empty in the modelled execution;
the `obj == NULL` test after an infinite-timeout take can never fire), then
`memcpy(obj, data, qhdl.obj_sz)` and `chFifoSendObject(fifo, obj,
TIME_INFINITE)`, which always succeeds (`MSG_OK`) because the mailbox has a
message slot for every pool slot, so `false` is returned.
ISR path: `chFifoTakeObjectI` inside a `chSysLockFromISR` bracket returns
`NULL` immediately when no slot is free, and the function returns `true`
without touching anything; otherwise `memcpy` then `chFifoSendObjectI`
(which cannot fail, same slot argument) and `false`. -/
def osal_queue_send (qhdl : osal_queue_t) (f : objects_fifo_t)
    (data : List Nat) (in_isr : Bool) : Option (Bool × objects_fifo_t) :=
  if !in_isr then
    match f.free with
    | [] => none
    | _slot :: rest =>
      some (false, { f with
                     free := rest
                     queued := f.queued ++ [memcpyBytes qhdl.obj_sz data] })
  else
    match f.free with
    | [] => some (true, f)
    | _slot :: rest =>
      some (false, { f with
                     free := rest
                     queued := f.queued ++ [memcpyBytes qhdl.obj_sz data] })

/-- `osal_queue_receive(qhdl, data)` as written in the source. The local
`void** objpp` is declared but never initialized, and the source passes
`objpp` itself — not `&objpp` — to `chFifoReceiveObjectTimeout`, so the
kernel stores the dequeued object's address through an indeterminate
pointer, and the following `memcpy(data, *objpp, qhdl.obj_sz)` and
`chFifoReturnObject(qhdl.fifo, *objpp)` read through that same
indeterminate pointer (undefined behaviour in C). The model makes the
indeterminacy explicit: `junk` is the byte content found at the
indeterminate pointer; the dequeued object's own contents are dropped
(leaked, never returned to the pool) and what `chFifoReturnObject` pushes
back into the free pool is the indeterminate pointer, modelled by its
contents `junk`. With `TIME_INFINITE` the wait blocks (`none`) while the
mailbox is empty, so the early-return branch for a failed wait never fires
in the modelled execution. -/
def osal_queue_receive (qhdl : osal_queue_t) (f : objects_fifo_t)
    (junk : List Nat) : Option (Bool × List Nat × objects_fifo_t) :=
  match f.queued with
  | [] => none
  | _obj :: rest =>
    some (false, memcpyBytes qhdl.obj_sz junk,
          { f with queued := rest, free := f.free ++ [junk] })

/-- Modelled from the spec: `chMBGetFreeCountI(&mbx)` — the number of FREE
message slots of the mailbox, `depth - queued.length`. -/
def chMBGetFreeCountI (f : objects_fifo_t) : Nat :=
  f.depth - f.queued.length

/-- `osal_queue_empty(qhdl)`: reads `chMBGetFreeCountI` of the handle's
mailbox under a `chSysLock` bracket and returns whether that FREE count is
zero — i.e. it tests whether the mailbox is full, not whether it is empty. -/
def osal_queue_empty (_qhdl : osal_queue_t) (f : objects_fifo_t) : Bool :=
  chMBGetFreeCountI f == 0

/-- Iterated thread-context sends: `some f'` when every send in the list
returned `failed = false`, the final fifo state. -/
def sendAll (qhdl : osal_queue_t) (ds : List (List Nat))
    (f : objects_fifo_t) : Option objects_fifo_t :=
  match ds with
  | [] => some f
  | d :: rest =>
    match osal_queue_send qhdl f d false with
    | some (false, f') => sendAll qhdl rest f'
    | _ => none

/-- As long as the pool has at least as many free slots as there are
payloads, every thread-context send succeeds and each consumes exactly one
free slot. -/
theorem sendAll_succeeds (qhdl : osal_queue_t) :
    ∀ (ds : List (List Nat)) (f : objects_fifo_t),
      ds.length ≤ f.free.length →
      ∃ f', sendAll qhdl ds f = some f' ∧
        f'.free.length + ds.length = f.free.length := by
  intro ds
  induction ds with
  | nil => exact fun f _ => ⟨f, rfl, by simp⟩
  | cons d rest ih =>
    intro f hlen
    match hf : f.free with
    | [] => simp [hf] at hlen
    | c :: rfree =>
      have hsend : osal_queue_send qhdl f d false =
          some (false, { f with
                         free := rfree
                         queued := f.queued ++ [memcpyBytes qhdl.obj_sz d] }) := by
        simp [osal_queue_send, hf]
      have hlen' : rest.length ≤ rfree.length := by
        have := hlen
        rw [hf] at this
        simpa using Nat.le_of_succ_le_succ (by simpa using this)
      obtain ⟨f', h1, h2⟩ := ih { f with
        free := rfree
        queued := f.queued ++ [memcpyBytes qhdl.obj_sz d] } hlen'
      refine ⟨f', ?_, ?_⟩
      · simp only [sendAll, hsend]
        exact h1
      · simp only [List.length_cons] at h2 ⊢
        omega

/-- C1: false on the code — `osal_queue_empty` compares the mailbox FREE
count (`chMBGetFreeCountI`) with zero, so it reports whether the queue is
FULL. On a freshly created queue of depth 4 holding zero ready objects,
where the claim requires `true`, it returns `false`; it returns `true`
exactly after the queue has been filled. -/
theorem claim_C1_queue_empty_bug :
    (chFifoObjectInit 2 4).queued.length = 0 ∧
    osal_queue_empty { obj_sz := 2, fifo := 0 } (chFifoObjectInit 2 4) = false ∧
    ∃ ffull,
      sendAll { obj_sz := 2, fifo := 0 } [[1, 0], [2, 0], [3, 0], [4, 0]]
          (chFifoObjectInit 2 4) = some ffull ∧
      ffull.queued.length = 4 ∧
      osal_queue_empty { obj_sz := 2, fifo := 0 } ffull = true :=
  ⟨rfl, rfl, _, rfl, rfl, rfl⟩

/-- C2: a thread-context send blocks (never returns in the modelled
execution) exactly when the pool is exhausted, and whenever it does return
it returns `failed = false`: pool exhaustion is never reported as a failure
from thread context. -/
theorem claim_C2_thread_send_never_fails (qhdl : osal_queue_t)
    (f : objects_fifo_t) (data : List Nat) :
    (osal_queue_send qhdl f data false = none ↔ f.free = []) ∧
    ∀ r, osal_queue_send qhdl f data false = some r → r.1 = false := by
  constructor
  · match hf : f.free with
    | [] => simp [osal_queue_send, hf]
    | c :: rest => simp [osal_queue_send, hf]
  · intro r hr
    match hf : f.free with
    | [] => simp [osal_queue_send, hf] at hr
    | c :: rest =>
      simp [osal_queue_send, hf] at hr
      subst hr
      rfl

/-- C3: an interrupt-context send always returns (never blocks), returns
`failed = true` with the state unchanged exactly when the pool has no free
slot, and after `D` successful thread-context sends into a fresh queue of
depth `D` with no intervening receive, the next interrupt-context send
fails. -/
theorem claim_C3_isr_send_exhaustion (qhdl : osal_queue_t)
    (f : objects_fifo_t) (data : List Nat) (sz : Nat) (ds : List (List Nat)) :
    (osal_queue_send qhdl f data true).isSome = true ∧
    ((osal_queue_send qhdl f data true = some (true, f)) ↔ f.free = []) ∧
    ∃ f', sendAll qhdl ds (chFifoObjectInit sz ds.length) = some f' ∧
      osal_queue_send qhdl f' data true = some (true, f') := by
  refine ⟨?_, ⟨?_, ?_⟩, ?_⟩
  · match hf : f.free with
    | [] => simp [osal_queue_send, hf]
    | c :: rest => simp [osal_queue_send, hf]
  · intro h
    match hf : f.free with
    | [] => rfl
    | c :: rest => simp [osal_queue_send, hf] at h
  · intro hf
    simp [osal_queue_send, hf]
  · obtain ⟨f', h1, h2⟩ := sendAll_succeeds qhdl ds (chFifoObjectInit sz ds.length)
      (by simp [chFifoObjectInit])
    have hinit : (chFifoObjectInit sz ds.length).free.length = ds.length := by
      simp [chFifoObjectInit]
    have hfree : f'.free = [] := List.length_eq_zero.mp (by omega)
    exact ⟨f', h1, by simp [osal_queue_send, hfree]⟩

/-- C4: false on the code — `osal_queue_receive` stores and reads the
received object's reference through the uninitialized pointer `objpp`
(the source passes `objpp`, not `&objpp`, to the kernel), so the receiver
gets the indeterminate memory contents, not the sent payload: sending
`[1, 0]` and receiving under indeterminate contents `[9, 9]` delivers
`[9, 9] ≠ [1, 0]`. -/
theorem claim_C4_roundtrip_bug :
    ∃ f1 f2,
      osal_queue_send { obj_sz := 2, fifo := 0 } (chFifoObjectInit 2 4)
          [1, 0] false = some (false, f1) ∧
      osal_queue_receive { obj_sz := 2, fifo := 0 } f1 [9, 9]
          = some (false, [9, 9], f2) ∧
      ([9, 9] : List Nat) ≠ [1, 0] :=
  ⟨_, _, rfl, rfl, by decide⟩

/-- C5: false on the code — because of the uninitialized `objpp` in
`osal_queue_receive`, two receives after sending A then B deliver the
indeterminate bytes found behind the wild pointer, not A then B: after
sending `[1, 0]` then `[2, 0]`, the receives deliver `[9, 9]` then `[8, 8]`
under those indeterminate contents. -/
theorem claim_C5_fifo_order_bug :
    ∃ f1 f2 f3 f4,
      osal_queue_send { obj_sz := 2, fifo := 0 } (chFifoObjectInit 2 4)
          [1, 0] false = some (false, f1) ∧
      osal_queue_send { obj_sz := 2, fifo := 0 } f1 [2, 0] false
          = some (false, f2) ∧
      osal_queue_receive { obj_sz := 2, fifo := 0 } f2 [9, 9]
          = some (false, [9, 9], f3) ∧
      osal_queue_receive { obj_sz := 2, fifo := 0 } f3 [8, 8]
          = some (false, [8, 8], f4) ∧
      ([9, 9] : List Nat) ≠ [1, 0] ∧ ([8, 8] : List Nat) ≠ [2, 0] :=
  ⟨_, _, _, _, rfl, rfl, rfl, rfl, by decide, by decide⟩

/-- C6: false on the code — `osal_mutex_create` sets `m.size = 1` but then
assigns `s.sem = &mdef->sem` and returns `s`, where `s` is undeclared, and
initializes through the never-assigned field `m.sem`: under indeterminate
values (`s.size = 7`, `m.sem` pointing at address 99) the returned handle's
capacity field is 7, not 1, and the descriptor's embedded semaphore (at
address 3) stays uninitialized (counter 0, not 1) — unlike
`osal_semaphore_create` on a capacity-1 descriptor, which the claim says it
should match. -/
theorem claim_C6_mutex_create_bug :
    (osal_mutex_create { size := 7, sem := 0 } 99 { size := 5, semAddr := 3 }
        (fun _ => 0)).1.size = 7 ∧
    ((osal_mutex_create { size := 7, sem := 0 } 99 { size := 5, semAddr := 3 }
        (fun _ => 0)).2) 3 = 0 ∧
    ((7 : Nat) ≠ 1 ∧ (0 : Int) ≠ 1) ∧
    (osal_semaphore_create { size := 1, semAddr := 3 } (fun _ => 0)).1.size = 1 ∧
    ((osal_semaphore_create { size := 1, semAddr := 3 } (fun _ => 0)).2) 3 = 1 :=
  ⟨rfl, rfl, ⟨by decide, by decide⟩, rfl, rfl⟩

/-- C7: `osal_mutex_lock` and `osal_semaphore_wait` agree on every handle,
timeout, heap and environment: same sentinel-to-infinite conversion, same
kernel wait, same boolean result and same effect. -/
theorem claim_C7_mutex_lock_eq_wait (ms2i : Nat → Nat)
    (hdl : osal_semaphore_t) (msec : Nat) (h : SemHeap) (env : msg_t) :
    osal_mutex_lock ms2i hdl msec h env
      = osal_semaphore_wait ms2i hdl msec h env := rfl

/-- C8: `osal_semaphore_wait` calls the kernel wait with `TIME_INFINITE`
when `msec` is the wait-forever sentinel and with `TIME_MS2I msec` ticks
otherwise, and whenever it returns, its boolean is `false` exactly when the
count was successfully taken (counter positive, or a post arrived while
blocked) and `true` exactly when the wait timed out or was forcibly
released. -/
theorem claim_C8_semaphore_wait_contract (ms2i : Nat → Nat)
    (hdl : osal_semaphore_t) (msec : Nat) (h : SemHeap) (env : msg_t) :
    (osal_semaphore_wait ms2i hdl msec h env =
        (chSemWaitTimeout (h hdl.sem)
            (if msec = OSAL_TIMEOUT_WAIT_FOREVER then .infinite
             else .ticks (ms2i msec)) env).map
          (fun p => (msgToBool p.1, semWrite h hdl.sem p.2))) ∧
    ∀ r, osal_semaphore_wait ms2i hdl msec h env = some r →
      (r.1 = false ↔ (0 < h hdl.sem ∨ env = msg_t.ok)) := by
  refine ⟨rfl, ?_⟩
  intro r hr
  rcases r with ⟨b, h'⟩
  by_cases hc : 0 < h hdl.sem
  · simp [osal_semaphore_wait, chSemWaitTimeout, hc, msgToBool] at hr
    simp [← hr.1, hc]
  · cases env with
    | ok =>
      simp [osal_semaphore_wait, chSemWaitTimeout, hc, msgToBool] at hr
      simp [← hr.1]
    | reset =>
      simp [osal_semaphore_wait, chSemWaitTimeout, hc, msgToBool] at hr
      simp [← hr.1, hc]
    | timeout =>
      by_cases hm : msec = OSAL_TIMEOUT_WAIT_FOREVER
      · simp [osal_semaphore_wait, chSemWaitTimeout, hc, hm] at hr
      · simp [osal_semaphore_wait, chSemWaitTimeout, hc, hm, msgToBool] at hr
        simp [← hr.1, hc]

/-- C9: false on the code — `osal_queue_create` initializes the
descriptor's control block correctly (depth slots of `obj_sz` bytes) but
ends with `return &qdef->fifo;` where the handle struct is required: the
handle's `obj_sz` field is never set from the descriptor (under
indeterminate value 0 it differs from the descriptor's `obj_sz = 2`); only
the fifo reference is carried. -/
theorem claim_C9_queue_create_bug :
    (osal_queue_create 0 { depth := 4, obj_sz := 2, fifoAddr := 7 }).2
        = chFifoObjectInit 2 4 ∧
    (osal_queue_create 0 { depth := 4, obj_sz := 2, fifoAddr := 7 }).1.fifo = 7 ∧
    (osal_queue_create 0 { depth := 4, obj_sz := 2, fifoAddr := 7 }).1.obj_sz = 0 ∧
    (0 : Nat) ≠ 2 :=
  ⟨rfl, rfl, rfl, by decide⟩

/-- C10: an interrupt-context send that finds no free pool slot returns
`failed = true` with the fifo state exactly as it was: no payload bytes
copied into any slot, no slot taken, nothing enqueued. -/
theorem claim_C10_isr_fail_frame (qhdl : osal_queue_t) (depth objSz : Nat)
    (queued : List (List Nat)) (data : List Nat) :
    osal_queue_send qhdl
        { depth := depth, objSz := objSz, free := [], queued := queued }
        data true
      = some (true,
          { depth := depth, objSz := objSz, free := [], queued := queued }) :=
  rfl
